import Mathlib

/-!
Shallow embedding of `src/src-tauri/python/bge_embed.py`.

The module wraps an external sentence-embedding model behind a facade:
a class `BGEEmbedder` whose constructor loads the external model, two
methods `embed_text` and `embed_batch` that call the model and
log-and-reraise on failure, a lazily constructed module-level singleton
`_model` accessed through `get_model`, and convenience functions
`embed_text` / `embed_text_batch`.

The external collaborator (`SentenceTransformer`) is modelled by a
`World`: whether its k-th construction attempt succeeds, and what
`encode` returns on a list of strings. A raised Python exception is
modelled as `Except.error` carrying the message `str(e)`; the lines
written by `print` and the calls made into the collaborator are recorded
as an event list, so that "logged", "no retry" and "constructed exactly
once" are statable.
-/

/-- A numpy row vector as returned by the external model. The facade
treats the scalars opaquely, so they are modelled as rationals. -/
def NDArr : Type := List Rat

instance : DecidableEq NDArr := by
  unfold NDArr
  infer_instance

/-- The `tolist()` conversion applied to each row of an `encode` result. -/
def NDArr.tolist (a : NDArr) : List Rat := a

/-- A Python value handed to the facade: either a `str`, or a non-string
value carrying its `str()` representation. -/
inductive PyVal where
  | str (s : String)
  | other (s : String)
deriving DecidableEq

/-- Python `str(x)`; on a string it is the string itself. -/
def pyStr : PyVal → String
  | .str s => s
  | .other s => s

/-- The `isinstance(text, str)` test. -/
def PyVal.isString : PyVal → Bool
  | .str _ => true
  | .other _ => false

/-- One line written by `print`. Each constructor is one print site of
the source, carrying the variable part of its format string; `render`
reproduces the exact text. -/
inductive Line where
  | banner (model_name : String)
  | loadedOk
  | initError (cause : String)
  | embedError (cause : String)
  | batchError (cause : String)
deriving DecidableEq

/-- The exact text of each print site of the source. -/
def Line.render : Line → String
  | .banner n => "Initializing BGE model: " ++ n
  | .loadedOk => "Model initialized successfully"
  | .initError c => "Error initializing model: " ++ c
  | .embedError c => "Error generating embedding: " ++ c
  | .batchError c => "Error generating batch embeddings: " ++ c

/-- Whether a printed line reports a failure (the three `except` blocks)
rather than progress (the two success-path prints). -/
def Line.isError : Line → Bool
  | .initError _ => true
  | .embedError _ => true
  | .batchError _ => true
  | _ => false

/-- Observable side effects of the facade: lines written by `print` and
calls made into the external collaborator. -/
inductive Event where
  | printed (line : Line)
  | constructCalled (model_name : String)
  | encodeCalled (args : List String)
deriving DecidableEq

/-- Behaviour of the external collaborator (`SentenceTransformer`):
`constructOk k` says whether the k-th construction attempt in this
process succeeds, and `encode` gives the result of model inference on a
list of strings. `Except.error e` models a raised exception with
message `e`. -/
structure World where
  constructOk : Nat → Except String Unit
  encode : List String → Except String (List NDArr)

/-- An instance of the Python class `BGEEmbedder`; `id` is the index of
the construction attempt that produced it, so instances produced by
distinct constructions are distinct. -/
structure BGEEmbedder where
  id : Nat
deriving DecidableEq

/-- Module-level mutable state: the global `_model` (`none` models the
Python `None`) and how many external-model constructions have been
attempted so far in this process. -/
structure St where
  _model : Option BGEEmbedder
  constructCount : Nat
deriving DecidableEq

/-- Result of a call that may read or change the module state. -/
structure CallOut (α : Type) where
  result : Except String α
  state : St
  events : List Event

/-- Result of a method call on an existing instance; such calls never
touch the module state, so none is carried. -/
structure EmbedOut (α : Type) where
  result : Except String α
  events : List Event

/-- The constructor `BGEEmbedder.__init__`: prints the banner, invokes the
external construction, prints success; on exception prints the error
message and re-raises the exception unchanged (`raise`). -/
def BGEEmbedder.init (w : World) (model_name : String) (st : St) :
    CallOut BGEEmbedder :=
  let k := st.constructCount
  match w.constructOk k with
  | .ok _ =>
      { result := .ok ⟨k⟩
        state := { st with constructCount := k + 1 }
        events := [.printed (.banner model_name),
                   .constructCalled model_name,
                   .printed .loadedOk] }
  | .error e =>
      { result := .error e
        state := { st with constructCount := k + 1 }
        events := [.printed (.banner model_name),
                   .constructCalled model_name,
                   .printed (.initError e)] }

/-- The method `BGEEmbedder.embed_text`: coerces a non-string input with
`str` (on a string, `str` is the identity, so both branches of the
`isinstance` guard yield the same string), calls `encode` on the
one-element list, indexes element `[0]` (an `IndexError` if `encode`
returned an empty sequence), converts with `tolist`; on any exception
inside the `try` block prints the error and re-raises it unchanged. -/
def BGEEmbedder.embed_text (w : World) (_self : BGEEmbedder) (text : PyVal) :
    EmbedOut (List Rat) :=
  let t : String :=
    match text with
    | PyVal.str s => s
    | PyVal.other s => s
  match w.encode [t] with
  | .error e =>
      { result := .error e
        events := [.encodeCalled [t], .printed (.embedError e)] }
  | .ok [] =>
      { result := .error "list index out of range"
        events := [.encodeCalled [t],
                   .printed (.embedError "list index out of range")] }
  | .ok (emb :: _) =>
      { result := .ok emb.tolist
        events := [.encodeCalled [t]] }

/-- The method `BGEEmbedder.embed_batch`: coerces every element with
`str`, calls `encode` on the whole list, converts each returned row with
`tolist`; on any exception inside the `try` block prints the error and
re-raises it unchanged. -/
def BGEEmbedder.embed_batch (w : World) (_self : BGEEmbedder)
    (texts : List PyVal) : EmbedOut (List (List Rat)) :=
  let ts := texts.map pyStr
  match w.encode ts with
  | .error e =>
      { result := .error e
        events := [.encodeCalled ts, .printed (.batchError e)] }
  | .ok embs =>
      { result := .ok (embs.map NDArr.tolist)
        events := [.encodeCalled ts] }

/-- The module function `get_model`: returns the cached `_model`; when it
is `None`, constructs `BGEEmbedder()` with the default identifier and
caches the instance. When the constructor raises, the assignment
`_model = BGEEmbedder()` never executes, so `_model` stays `None`. -/
def get_model (w : World) (st : St) : CallOut BGEEmbedder :=
  match st._model with
  | some h => { result := .ok h, state := st, events := [] }
  | none =>
      let o := BGEEmbedder.init w "BAAI/bge-m3" st
      match o.result with
      | .ok h =>
          { result := .ok h
            state := { o.state with _model := some h }
            events := o.events }
      | .error e =>
          { result := .error e, state := o.state, events := o.events }

/-- The module convenience function `embed_text`:
`return get_model().embed_text(text)`. -/
def embed_text (w : World) (st : St) (text : PyVal) : CallOut (List Rat) :=
  let g := get_model w st
  match g.result with
  | .ok h =>
      let o := BGEEmbedder.embed_text w h text
      { result := o.result, state := g.state, events := g.events ++ o.events }
  | .error e =>
      { result := .error e, state := g.state, events := g.events }

/-- The module convenience function `embed_text_batch`:
`return get_model().embed_batch(texts)`. -/
def embed_text_batch (w : World) (st : St) (texts : List PyVal) :
    CallOut (List (List Rat)) :=
  let g := get_model w st
  match g.result with
  | .ok h =>
      let o := BGEEmbedder.embed_batch w h texts
      { result := o.result, state := g.state, events := g.events ++ o.events }
  | .error e =>
      { result := .error e, state := g.state, events := g.events }

/-- Module state at process start: `_model = None`, no constructions
attempted yet. -/
def initSt : St := { _model := none, constructCount := 0 }

/-- Results and final module state of `n` successive `get_model()` calls. -/
def get_model_iter (w : World) : Nat → St → List (Except String BGEEmbedder) × St
  | 0, st => ([], st)
  | Nat.succ n, st =>
      let o := get_model w st
      let p := get_model_iter w n o.state
      (o.result :: p.1, p.2)

/-- Number of failure-reporting lines among the printed output. -/
def errorPrints (evs : List Event) : Nat :=
  (evs.filter fun ev =>
    match ev with
    | Event.printed l => l.isError
    | _ => false).length

/-- Pointwise test collaborator map: embeds a string as the one-element
vector holding its length. -/
def lenEmb (s : String) : NDArr := [(s.length : Rat)]

/-- Test world whose collaborator always succeeds and encodes pointwise
with `lenEmb`. -/
def wOk : World :=
  { constructOk := fun _ => .ok ()
    encode := fun ts => .ok (ts.map lenEmb) }

/-- Test world whose collaborator constructs fine but raises on every
inference call. -/
def wEncodeFail : World :=
  { constructOk := fun _ => .ok ()
    encode := fun _ => .error "CUDA out of memory" }

/-- Test world whose collaborator fails every construction attempt. -/
def wLoadFail : World :=
  { constructOk := fun _ => .error "Repository Not Found"
    encode := fun ts => .ok (ts.map lenEmb) }

/-- Test world whose collaborator fails its first construction attempt
and succeeds afterwards. -/
def wFlaky : World :=
  { constructOk := fun k => if k == 0 then .error "Connection reset" else .ok ()
    encode := fun ts => .ok (ts.map lenEmb) }

/-- A module state in which the singleton is already cached. -/
def cachedSt : St := { _model := some ⟨0⟩, constructCount := 1 }

/-- Test world whose collaborator fails both construction and inference. -/
def wAllFail : World :=
  { constructOk := fun _ => .error "Repository Not Found"
    encode := fun _ => .error "CUDA out of memory" }

/-- Unfolded form of `BGEEmbedder.embed_text`: the `isinstance` guard
collapses to `pyStr` because Python `str` is the identity on strings. -/
theorem embed_text_unfold (w : World) (self : BGEEmbedder) (x : PyVal) :
    BGEEmbedder.embed_text w self x =
      match w.encode [pyStr x] with
      | .error e =>
          { result := .error e
            events := [.encodeCalled [pyStr x], .printed (.embedError e)] }
      | .ok [] =>
          { result := .error "list index out of range"
            events := [.encodeCalled [pyStr x],
                       .printed (.embedError "list index out of range")] }
      | .ok (emb :: _) =>
          { result := .ok emb.tolist
            events := [.encodeCalled [pyStr x]] } := by
  cases x <;> rfl

/-- Once the singleton is cached, `get_model` returns it and is pure. -/
theorem get_model_cached (w : World) (st : St) (h : BGEEmbedder)
    (hm : st._model = some h) :
    get_model w st = { result := .ok h, state := st, events := [] } := by
  unfold get_model
  rw [hm]

/-- Iterating `get_model` from a cached state yields the cached instance
every time and leaves the state unchanged. -/
theorem get_model_iter_cached (w : World) (n : Nat) (st : St)
    (h : BGEEmbedder) (hm : st._model = some h) :
    get_model_iter w n st = (List.replicate n (Except.ok h), st) := by
  induction n with
  | zero => rfl
  | succ n ih =>
      rw [get_model_iter, get_model_cached w st h hm]
      simp [ih, List.replicate_succ]

/-- First `get_model` call from the fresh state, when the external
construction succeeds: instance `0` is created and cached. -/
theorem get_model_fresh (w : World) (hc : w.constructOk 0 = .ok ()) :
    get_model w initSt =
      { result := .ok ⟨0⟩
        state := cachedSt
        events := [.printed (.banner "BAAI/bge-m3"),
                   .constructCalled "BAAI/bge-m3",
                   .printed .loadedOk] } := by
  simp [get_model, initSt, BGEEmbedder.init, hc, cachedSt]

/-- Unfolded form of the constructor, with the `let` reduced. -/
theorem init_unfold (w : World) (model_name : String) (st : St) :
    BGEEmbedder.init w model_name st =
      match w.constructOk st.constructCount with
      | .ok _ =>
          { result := .ok ⟨st.constructCount⟩
            state := { st with constructCount := st.constructCount + 1 }
            events := [.printed (.banner model_name),
                       .constructCalled model_name,
                       .printed .loadedOk] }
      | .error e =>
          { result := .error e
            state := { st with constructCount := st.constructCount + 1 }
            events := [.printed (.banner model_name),
                       .constructCalled model_name,
                       .printed (.initError e)] } := rfl

/-- Unfolded form of `BGEEmbedder.embed_batch`, with the `let` reduced. -/
theorem embed_batch_unfold (w : World) (self : BGEEmbedder)
    (texts : List PyVal) :
    BGEEmbedder.embed_batch w self texts =
      match w.encode (texts.map pyStr) with
      | .error e =>
          { result := .error e
            events := [.encodeCalled (texts.map pyStr),
                       .printed (.batchError e)] }
      | .ok embs =>
          { result := .ok (embs.map NDArr.tolist)
            events := [.encodeCalled (texts.map pyStr)] } := rfl

/-- On an uncached state whose construction attempt fails, `get_model`
propagates the error and caches nothing. -/
theorem get_model_uncached_error (w : World) (st : St) (e : String)
    (hm : st._model = none)
    (hc : w.constructOk st.constructCount = .error e) :
    get_model w st =
      { result := .error e
        state := { st with constructCount := st.constructCount + 1 }
        events := [.printed (.banner "BAAI/bge-m3"),
                   .constructCalled "BAAI/bge-m3",
                   .printed (.initError e)] } := by
  simp only [get_model, hm, init_unfold, hc]

/-- C1: when the underlying model's encode raises during `embed_text` or
`embed_batch`, the facade logs the error and re-raises the same
exception (the inference failure propagated to the caller); no partial
result is returned and the model is invoked exactly once (no retry). -/
theorem C1_inference_failure_logged_reraised
    (w : World) (self : BGEEmbedder) (x : PyVal) (xs : List PyVal)
    (e1 e2 : String)
    (h1 : w.encode [pyStr x] = .error e1)
    (h2 : w.encode (xs.map pyStr) = .error e2) :
    (BGEEmbedder.embed_text w self x).result = .error e1 ∧
    (BGEEmbedder.embed_text w self x).events =
      [.encodeCalled [pyStr x], .printed (.embedError e1)] ∧
    (BGEEmbedder.embed_batch w self xs).result = .error e2 ∧
    (BGEEmbedder.embed_batch w self xs).events =
      [.encodeCalled (xs.map pyStr), .printed (.batchError e2)] := by
  rw [embed_text_unfold, h1, embed_batch_unfold, h2]
  exact ⟨rfl, rfl, rfl, rfl⟩

/-- C1 witness: a concrete inference failure. -/
theorem C1_witness :
    wEncodeFail.encode [pyStr (PyVal.str "hello")] = .error "CUDA out of memory" ∧
    (BGEEmbedder.embed_text wEncodeFail ⟨0⟩ (PyVal.str "hello")).result =
      .error "CUDA out of memory" ∧
    (BGEEmbedder.embed_text wEncodeFail ⟨0⟩ (PyVal.str "hello")).events =
      [.encodeCalled [pyStr (PyVal.str "hello")],
       .printed (.embedError "CUDA out of memory")] ∧
    (BGEEmbedder.embed_batch wEncodeFail ⟨0⟩ [PyVal.str "a", PyVal.str "b"]).result =
      .error "CUDA out of memory" ∧
    (BGEEmbedder.embed_batch wEncodeFail ⟨0⟩ [PyVal.str "a", PyVal.str "b"]).events =
      [.encodeCalled ([PyVal.str "a", PyVal.str "b"].map pyStr),
       .printed (.batchError "CUDA out of memory")] := by
  refine ⟨rfl, ?_⟩
  exact C1_inference_failure_logged_reraised wEncodeFail ⟨0⟩ (PyVal.str "hello")
    [PyVal.str "a", PyVal.str "b"] "CUDA out of memory" "CUDA out of memory" rfl rfl

/-- C2: when the external model fails to load, construction fails with
the propagated exception, the log carries the identifier (banner line)
and the underlying message (error line), exactly one construction is
attempted, and no instance is produced or cached. -/
theorem C2_construction_failure
    (w : World) (model_name : String) (st : St) (e : String)
    (h : w.constructOk st.constructCount = .error e) :
    (BGEEmbedder.init w model_name st).result = .error e ∧
    (BGEEmbedder.init w model_name st).events =
      [.printed (.banner model_name),
       .constructCalled model_name,
       .printed (.initError e)] ∧
    (BGEEmbedder.init w model_name st).state =
      { st with constructCount := st.constructCount + 1 } := by
  rw [init_unfold, h]
  exact ⟨rfl, rfl, rfl⟩

/-- C2 witness: a concrete load failure. -/
theorem C2_witness :
    wLoadFail.constructOk initSt.constructCount = .error "Repository Not Found" ∧
    (BGEEmbedder.init wLoadFail "BAAI/bge-m3" initSt).result =
      .error "Repository Not Found" ∧
    (BGEEmbedder.init wLoadFail "BAAI/bge-m3" initSt).events =
      [.printed (.banner "BAAI/bge-m3"),
       .constructCalled "BAAI/bge-m3",
       .printed (.initError "Repository Not Found")] ∧
    (BGEEmbedder.init wLoadFail "BAAI/bge-m3" initSt).state =
      { initSt with constructCount := initSt.constructCount + 1 } := by
  refine ⟨rfl, ?_⟩
  exact C2_construction_failure wLoadFail "BAAI/bge-m3" initSt
    "Repository Not Found" rfl

/-- C3: on every failure path (construction, single embedding, batch
embedding, and a construction failure reached through the module-level
`embed_text`) exactly one error line is printed and the same exception
is re-raised unchanged; no embedding vector is returned. -/
theorem C3_log_once_then_reraise
    (w : World) (st : St) (self : BGEEmbedder) (model_name : String)
    (x : PyVal) (xs : List PyVal) (e1 e2 e3 : String)
    (hc : w.constructOk st.constructCount = .error e1)
    (h1 : w.encode [pyStr x] = .error e2)
    (h2 : w.encode (xs.map pyStr) = .error e3)
    (hm : st._model = none) :
    ((BGEEmbedder.init w model_name st).result = .error e1 ∧
      errorPrints (BGEEmbedder.init w model_name st).events = 1) ∧
    ((BGEEmbedder.embed_text w self x).result = .error e2 ∧
      errorPrints (BGEEmbedder.embed_text w self x).events = 1) ∧
    ((BGEEmbedder.embed_batch w self xs).result = .error e3 ∧
      errorPrints (BGEEmbedder.embed_batch w self xs).events = 1) ∧
    ((embed_text w st x).result = .error e1 ∧
      errorPrints (embed_text w st x).events = 1) := by
  rw [init_unfold, hc, embed_text_unfold, h1, embed_batch_unfold, h2]
  rw [show embed_text w st x =
        { result := .error e1
          state := { st with constructCount := st.constructCount + 1 }
          events := [.printed (.banner "BAAI/bge-m3"),
                     .constructCalled "BAAI/bge-m3",
                     .printed (.initError e1)] } from by
    simp only [embed_text, get_model_uncached_error w st e1 hm hc]]
  exact ⟨⟨rfl, rfl⟩, ⟨rfl, rfl⟩, ⟨rfl, rfl⟩, ⟨rfl, rfl⟩⟩

/-- C3 witness: a concrete world in which construction and inference
both fail. -/
theorem C3_witness :
    wAllFail.constructOk initSt.constructCount = .error "Repository Not Found" ∧
    wAllFail.encode [pyStr (PyVal.str "x")] = .error "CUDA out of memory" ∧
    initSt._model = none ∧
    ((BGEEmbedder.init wAllFail "BAAI/bge-m3" initSt).result =
        .error "Repository Not Found" ∧
      errorPrints (BGEEmbedder.init wAllFail "BAAI/bge-m3" initSt).events = 1) ∧
    ((BGEEmbedder.embed_text wAllFail ⟨0⟩ (PyVal.str "x")).result =
        .error "CUDA out of memory" ∧
      errorPrints (BGEEmbedder.embed_text wAllFail ⟨0⟩ (PyVal.str "x")).events = 1) ∧
    ((BGEEmbedder.embed_batch wAllFail ⟨0⟩ [PyVal.str "a"]).result =
        .error "CUDA out of memory" ∧
      errorPrints (BGEEmbedder.embed_batch wAllFail ⟨0⟩ [PyVal.str "a"]).events = 1) ∧
    ((embed_text wAllFail initSt (PyVal.str "x")).result =
        .error "Repository Not Found" ∧
      errorPrints (embed_text wAllFail initSt (PyVal.str "x")).events = 1) := by
  refine ⟨rfl, rfl, rfl, ?_⟩
  exact C3_log_once_then_reraise wAllFail initSt ⟨0⟩ "BAAI/bge-m3"
    (PyVal.str "x") [PyVal.str "a"] "Repository Not Found"
    "CUDA out of memory" "CUDA out of memory" rfl rfl rfl rfl

/-- On an uncached state whose construction attempt succeeds, `get_model`
constructs the instance and caches it. -/
theorem get_model_uncached_ok (w : World) (st : St)
    (hm : st._model = none)
    (hc : w.constructOk st.constructCount = .ok ()) :
    get_model w st =
      { result := .ok ⟨st.constructCount⟩
        state := { _model := some ⟨st.constructCount⟩
                   constructCount := st.constructCount + 1 }
        events := [.printed (.banner "BAAI/bge-m3"),
                   .constructCalled "BAAI/bge-m3",
                   .printed .loadedOk] } := by
  simp only [get_model, hm, init_unfold, hc]

/-- C4: from a fresh process, any positive number of `get_model` calls
all return the handle created by the single construction (instance 0),
the construction count ends at one, the handle stays cached, and once
`_model` holds an instance no operation of the module replaces it. -/
theorem C4_lazy_singleton (w : World) (n : Nat) (hn : 0 < n)
    (hc : w.constructOk 0 = .ok ()) :
    (get_model_iter w n initSt).1 = List.replicate n (Except.ok ⟨0⟩) ∧
    (get_model_iter w n initSt).2.constructCount = 1 ∧
    (get_model_iter w n initSt).2._model = some ⟨0⟩ ∧
    (∀ st (hdl : BGEEmbedder) (x : PyVal) (xs : List PyVal),
      st._model = some hdl →
        (get_model w st).state._model = some hdl ∧
        (embed_text w st x).state._model = some hdl ∧
        (embed_text_batch w st xs).state._model = some hdl) := by
  obtain ⟨m, rfl⟩ : ∃ m, n = m + 1 :=
    ⟨n - 1, (Nat.succ_pred_eq_of_pos hn).symm⟩
  have key : get_model_iter w (m + 1) initSt =
      (Except.ok ⟨0⟩ :: List.replicate m (Except.ok ⟨0⟩), cachedSt) := by
    simp only [get_model_iter, get_model_fresh w hc,
      get_model_iter_cached w m cachedSt ⟨0⟩ rfl]
  refine ⟨?_, ?_, ?_, ?_⟩
  · rw [key, List.replicate_succ]
  · rw [key]; rfl
  · rw [key]; rfl
  · intro st hdl x xs hm
    have h := get_model_cached w st hdl hm
    refine ⟨?_, ?_, ?_⟩ <;> simp only [embed_text, embed_text_batch, h] <;>
      exact hm

/-- C4 witness: three calls against a concrete collaborator. -/
theorem C4_witness :
    0 < 3 ∧ wOk.constructOk 0 = .ok () ∧
    ((get_model_iter wOk 3 initSt).1 = List.replicate 3 (Except.ok ⟨0⟩) ∧
     (get_model_iter wOk 3 initSt).2.constructCount = 1 ∧
     (get_model_iter wOk 3 initSt).2._model = some ⟨0⟩ ∧
     (∀ st (hdl : BGEEmbedder) (x : PyVal) (xs : List PyVal),
       st._model = some hdl →
         (get_model wOk st).state._model = some hdl ∧
         (embed_text wOk st x).state._model = some hdl ∧
         (embed_text_batch wOk st xs).state._model = some hdl)) :=
  ⟨by decide, rfl, C4_lazy_singleton wOk 3 (by decide) rfl⟩

/-- C5: when the collaborator encodes pointwise (deterministically, one
vector per string), the batch result has one vector per input, in input
order, and its i-th entry is exactly the single-text result on the i-th
input. -/
theorem C5_batch_consistent_with_single (w : World) (self : BGEEmbedder)
    (f : String → NDArr) (xs : List PyVal)
    (hpt : ∀ ts, w.encode ts = .ok (ts.map f)) :
    ∃ rs, (BGEEmbedder.embed_batch w self xs).result = .ok rs ∧
      rs.length = xs.length ∧
      ∀ i (h1 : i < xs.length) (h2 : i < rs.length),
        (BGEEmbedder.embed_text w self xs[i]).result = .ok rs[i] := by
  refine ⟨xs.map (fun x => NDArr.tolist (f (pyStr x))), ?_, by simp, ?_⟩
  · rw [embed_batch_unfold, hpt]
    simp [List.map_map, Function.comp]
  · intro i h1 h2
    rw [embed_text_unfold, hpt]
    simp [List.getElem_map]

/-- C5 witness: a two-element batch against a concrete pointwise
collaborator. -/
theorem C5_witness :
    ∃ rs, (BGEEmbedder.embed_batch wOk ⟨0⟩
        [PyVal.str "ab", PyVal.other "cde"]).result = .ok rs ∧
      rs.length = ([PyVal.str "ab", PyVal.other "cde"] : List PyVal).length ∧
      ∀ i (h1 : i < ([PyVal.str "ab", PyVal.other "cde"] : List PyVal).length)
        (h2 : i < rs.length),
        (BGEEmbedder.embed_text wOk ⟨0⟩
            ([PyVal.str "ab", PyVal.other "cde"] : List PyVal)[i]).result =
          .ok rs[i] :=
  C5_batch_consistent_with_single wOk ⟨0⟩ lenEmb
    [PyVal.str "ab", PyVal.other "cde"] (fun _ => rfl)

/-- C6: on a non-string input, `embed_text` behaves exactly as on the
stringified input: same result and same observable effects. -/
theorem C6_nonstring_coerced (w : World) (self : BGEEmbedder) (x : PyVal)
    (hx : x.isString = false) :
    BGEEmbedder.embed_text w self x =
      BGEEmbedder.embed_text w self (PyVal.str (pyStr x)) := by
  cases x with
  | str s => simp [PyVal.isString] at hx
  | other s => rfl

/-- C6 witness: a concrete non-string input. -/
theorem C6_witness :
    (PyVal.other "12345").isString = false ∧
    BGEEmbedder.embed_text wOk ⟨0⟩ (PyVal.other "12345") =
      BGEEmbedder.embed_text wOk ⟨0⟩ (PyVal.str (pyStr (PyVal.other "12345"))) :=
  ⟨rfl, C6_nonstring_coerced wOk ⟨0⟩ (PyVal.other "12345") rfl⟩

/-- C7: when construction fails, `get_model` raises and the module-level
`_model` is still `None` afterwards. -/
theorem C7_failed_load_not_cached (w : World) (st : St) (e : String)
    (hm : st._model = none)
    (hc : w.constructOk st.constructCount = .error e) :
    (get_model w st).result = .error e ∧
    (get_model w st).state._model = none := by
  rw [get_model_uncached_error w st e hm hc]
  exact ⟨rfl, hm⟩

/-- C7 witness: a concrete load failure through `get_model`. -/
theorem C7_witness :
    initSt._model = none ∧
    wLoadFail.constructOk initSt.constructCount = .error "Repository Not Found" ∧
    (get_model wLoadFail initSt).result = .error "Repository Not Found" ∧
    (get_model wLoadFail initSt).state._model = none :=
  ⟨rfl, rfl,
    C7_failed_load_not_cached wLoadFail initSt "Repository Not Found" rfl rfl⟩

/-- C8: the empty batch yields the empty sequence and no error, given
the collaborator returns one vector per input (hence none for none). -/
theorem C8_empty_batch (w : World) (self : BGEEmbedder)
    (h : w.encode [] = .ok []) :
    (BGEEmbedder.embed_batch w self []).result = .ok [] ∧
    (BGEEmbedder.embed_batch w self []).events = [.encodeCalled []] := by
  rw [embed_batch_unfold]
  simp [h]

/-- C8 witness: the empty batch against a concrete collaborator. -/
theorem C8_witness :
    wOk.encode [] = .ok [] ∧
    (BGEEmbedder.embed_batch wOk ⟨0⟩ []).result = .ok [] ∧
    (BGEEmbedder.embed_batch wOk ⟨0⟩ []).events = [.encodeCalled []] :=
  ⟨rfl, C8_empty_batch wOk ⟨0⟩ rfl⟩

/-- C9: after the handle is cached, the module-level embedding calls
leave the whole module state (in particular `_model`) unchanged. -/
theorem C9_embedding_reads_only (w : World) (st : St) (hdl : BGEEmbedder)
    (x : PyVal) (xs : List PyVal) (hm : st._model = some hdl) :
    (embed_text w st x).state = st ∧
    (embed_text_batch w st xs).state = st := by
  have h := get_model_cached w st hdl hm
  constructor <;> simp only [embed_text, embed_text_batch, h]

/-- C9 witness: embedding calls on a cached state. -/
theorem C9_witness :
    cachedSt._model = some ⟨0⟩ ∧
    (embed_text wOk cachedSt (PyVal.str "hi")).state = cachedSt ∧
    (embed_text_batch wOk cachedSt [PyVal.str "hi"]).state = cachedSt :=
  ⟨rfl, C9_embedding_reads_only wOk cachedSt ⟨0⟩ (PyVal.str "hi")
    [PyVal.str "hi"] rfl⟩

/-- C10: a failed `get_model` caches nothing, so the next call invokes
the constructor again and can succeed; failure does not poison later
calls. -/
theorem C10_failure_not_poisoned (w : World) (st : St) (e : String)
    (hm : st._model = none)
    (h1 : w.constructOk st.constructCount = .error e)
    (h2 : w.constructOk (st.constructCount + 1) = .ok ()) :
    (get_model w st).result = .error e ∧
    (get_model w st).state._model = none ∧
    (get_model w (get_model w st).state).events =
      [.printed (.banner "BAAI/bge-m3"),
       .constructCalled "BAAI/bge-m3",
       .printed .loadedOk] ∧
    (get_model w (get_model w st).state).result =
      .ok ⟨st.constructCount + 1⟩ ∧
    (get_model w (get_model w st).state).state._model =
      some ⟨st.constructCount + 1⟩ := by
  have hfail := get_model_uncached_error w st e hm h1
  have hok := get_model_uncached_ok w
    { st with constructCount := st.constructCount + 1 } hm h2
  refine ⟨?_, ?_, ?_, ?_, ?_⟩
  all_goals simp only [hfail, hok]
  all_goals first
    | rfl
    | exact hm

/-- C10 witness: first construction attempt fails, second succeeds. -/
theorem C10_witness :
    initSt._model = none ∧
    wFlaky.constructOk initSt.constructCount = .error "Connection reset" ∧
    wFlaky.constructOk (initSt.constructCount + 1) = .ok () ∧
    ((get_model wFlaky initSt).result = .error "Connection reset" ∧
     (get_model wFlaky initSt).state._model = none ∧
     (get_model wFlaky (get_model wFlaky initSt).state).events =
       [.printed (.banner "BAAI/bge-m3"),
        .constructCalled "BAAI/bge-m3",
        .printed .loadedOk] ∧
     (get_model wFlaky (get_model wFlaky initSt).state).result =
       .ok ⟨initSt.constructCount + 1⟩ ∧
     (get_model wFlaky (get_model wFlaky initSt).state).state._model =
       some ⟨initSt.constructCount + 1⟩) :=
  ⟨rfl, rfl, rfl,
    C10_failure_not_poisoned wFlaky initSt "Connection reset" rfl rfl rfl⟩
